import Mathlib

/-!
# BottleNet bottle-inspection controller: shallow embedding and verification

This file embeds the Arduino sketch `src/BottleNet_April5.ino` (a bottle
inspection station: IR break-beam detection with debounce, ultrasonic height
measurement, size classification, capacitive water test, servo gate, LED and
buzzer feedback) and proves the specification's claims about it.

Modelling conventions:
* Machine integers (`int`, `long`, `unsigned long`) are modelled as `ℕ`/`ℤ`;
  none of the verified quantities can overflow their C types (analog samples
  are 0..1023 so the 5-sample sum is ≤ 5115; angles are 0..180; millis
  wrap-around is out of scope since tick times are ordinary naturals).
  `millis() - lastDebounce` on monotone time equals truncated `ℕ` subtraction.
* `float` arithmetic is idealised over `ℚ`; the constants 15.0, 25.0, 40.0,
  0.0343 become the exact rationals 15, 25, 40, 343/10000.  All claims are
  about the exact comparisons and the algebraic formula, which the rational
  model captures.
* Side effects (servo commands, digital writes, delays, LCD and serial
  output) are modelled as an explicit event trace, in source order.
  Calls that configure but command no output level (`Serial.begin`,
  `Wire.begin`, `pinMode`, `Servo::attach`) are not trace events.
  Sensor reads (`digitalRead`, `analogRead`, `pulseIn`) are inputs and are
  passed as parameters rather than recorded as events.
-/

set_option maxRecDepth 1000000

namespace BottleNet

/-! ## Hardware configuration and system parameters (source lines 10-35) -/

def SERVO_OPEN_ANGLE : ℤ := 180
def SERVO_CLOSED_ANGLE : ℤ := 0
def IR_SENSOR_PIN : ℕ := 2
def TRIG_PIN : ℕ := 9
def ECHO_PIN : ℕ := 10
def BUZZER_PIN : ℕ := 8
def GREEN_LED : ℕ := 5
def RED_LED : ℕ := 6
def SMALL_MAX : ℚ := 15
def MEDIUM_MAX : ℚ := 25
def CAP_WATER_THRESHOLD : ℕ := 500
def SENSOR_HEIGHT : ℚ := 40

/-- Digital level HIGH (Arduino `HIGH` = 1). -/
def HIGH : Bool := true

/-- Digital level LOW (Arduino `LOW` = 0). -/
def LOW : Bool := false

/-! ## Debounced edge detector: `bottleDetected` (source lines 95-111)

`bottleDetected` keeps two `static` variables across calls
(`lastDebounce : unsigned long`, `lastState : bool`, initialised to `0` and
`HIGH`).  Each call reads the current raw level and the current time and
returns a `bool`.  Note the early `return true` skips the final
`lastState = currentState;` assignment, which the step function reproduces. -/

/-- The `static` state of `bottleDetected` across calls. -/
structure DebounceState where
  lastDebounce : ℕ
  lastState : Bool
  deriving DecidableEq, Repr

/-- Initial values of the `static` variables: `lastDebounce = 0`,
`lastState = HIGH`. -/
def initDebounceState : DebounceState := ⟨0, HIGH⟩

/-- One call of `bottleDetected()` at time `now` (the value of `millis()`)
observing raw level `currentState`.  Mirrors lines 95-111:
if the level changed, `lastDebounce` is set to `now`; then if more than 50ms
passed since the last change and the level is LOW the call returns `true`
(skipping the `lastState` update), otherwise it records the level and
returns `false`. -/
def bottleDetectedStep (st : DebounceState) (now : ℕ) (currentState : Bool) :
    Bool × DebounceState :=
  let lastDebounce' := if currentState ≠ st.lastState then now else st.lastDebounce
  if 50 < now - lastDebounce' ∧ currentState = LOW then
    (true, ⟨lastDebounce', st.lastState⟩)
  else
    (false, ⟨lastDebounce', currentState⟩)

/-- Run `bottleDetected` over a sequence of ticks, each a pair
`(millis value, raw IR level)`, returning the outputs and the final state. -/
def runDebounce (st : DebounceState) : List (ℕ × Bool) → List Bool × DebounceState
  | [] => ([], st)
  | (now, s) :: rest =>
    let step := bottleDetectedStep st now s
    let tail := runDebounce step.2 rest
    (step.1 :: tail.1, tail.2)

/-- The predicate `togglesFast lastChange lastLevel ticks` says the raw signal chatters
faster than the 50ms debounce window throughout `ticks`: every tick happens
at most 50ms after the most recent observed level change (`lastChange` is
the time of the change preceding the ticks, `lastLevel` the level then). -/
def togglesFast : ℕ → Bool → List (ℕ × Bool) → Bool
  | _, _, [] => true
  | lastChange, lastLevel, (now, s) :: rest =>
    let c := if s ≠ lastLevel then now else lastChange
    decide (now - c ≤ 50) && togglesFast c s rest

/-! ## Distance sampler: `measureBottleHeight` (source lines 179-186) -/

/-- Function `measureBottleHeight`, given the echo pulse duration in microseconds
(the value `pulseIn` returned; `0` on timeout).  Converts the round trip to
a distance (`duration * 0.0343 / 2`) and returns
`max(SENSOR_HEIGHT - distance, 0.0)`. -/
def measureBottleHeight (duration : ℕ) : ℚ :=
  let distance : ℚ := (duration : ℚ) * (343 / 10000) / 2
  max (SENSOR_HEIGHT - distance) 0

/-! ## Classifier: `classifyBottleSize` (source lines 188-192) -/

/-- Function `classifyBottleSize`: `height ≤ SMALL_MAX → "Small"`, else
`height ≤ MEDIUM_MAX → "Medium"`, else `"Large"`. -/
def classifyBottleSize (height : ℚ) : String :=
  if height ≤ SMALL_MAX then "Small"
  else if height ≤ MEDIUM_MAX then "Medium"
  else "Large"

/-! ## Capacitive liquid sampler: `checkWaterPresence` (source lines 194-202)

The loop takes exactly five `analogRead` samples; the samples are the input,
modelled as a function `Fin 5 → ℕ` (each sample is 0..1023 on the hardware,
so the `int` accumulator cannot overflow). -/

/-- The accumulator after the 5-iteration loop `avg += analogRead(...)`,
starting from `int avg = 0`, unrolled in call order. -/
def checkWaterSum (samples : Fin 5 → ℕ) : ℕ :=
  0 + samples 0 + samples 1 + samples 2 + samples 3 + samples 4

/-- Function `checkWaterPresence`: integer-truncated average of the five samples
(`avg /= 5`), then the strict comparison `avg > CAP_WATER_THRESHOLD`. -/
def checkWaterPresence (samples : Fin 5 → ℕ) : Bool :=
  decide (CAP_WATER_THRESHOLD < checkWaterSum samples / 5)

/-! ## Event traces for the side-effecting code

Every observable action of the sketch, in program order. -/

/-- One observable side effect of the sketch. -/
inductive Event where
  /-- A `gateServo.write(angle)` call. -/
  | servoWrite (angle : ℤ)
  /-- A `digitalWrite(pin, level)` call. -/
  | digitalWrite (pin : ℕ) (level : Bool)
  /-- A `delay(ms)` call. -/
  | delayMs (ms : ℕ)
  /-- A `delayMicroseconds(us)` call. -/
  | delayMicros (us : ℕ)
  /-- An `lcd.init()` call. -/
  | lcdInit
  /-- An `lcd.backlight()` call. -/
  | lcdBacklight
  /-- An `lcd.clear()` call. -/
  | lcdClear
  /-- An `lcd.setCursor(col, row)` call. -/
  | lcdSetCursor (col row : ℕ)
  /-- An `lcd.print(s)` call. -/
  | lcdPrintStr (s : String)
  /-- The whole `updateDisplay(height, size, hasWater, accepted)` call
  (lines 157-163): four LCD lines rendered from these values. -/
  | lcdUpdate (height : ℚ) (size : String) (hasWater accepted : Bool)
  /-- A `Serial.print`/`println` of a fixed string. -/
  | serialPrintStr (s : String)
  /-- The whole `logResults(height, size, hasWater, accepted)` call
  (lines 225-230): one diagnostic line rendered from these values. -/
  | serialLog (height : ℚ) (size : String) (hasWater accepted : Bool)
  deriving DecidableEq, Repr

/-- The trace of `beep(duration)` (lines 219-223): buzzer HIGH, delay, buzzer LOW. -/
def beepTrace (duration : ℕ) : List Event :=
  [.digitalWrite BUZZER_PIN HIGH, .delayMs duration, .digitalWrite BUZZER_PIN LOW]

/-- The trace of `startupBeep()` (lines 207-209). -/
def startupBeepTrace : List Event := beepTrace 100 ++ [.delayMs 50] ++ beepTrace 100

/-- The trace of `acceptBeep()` (lines 211-213). -/
def acceptBeepTrace : List Event := beepTrace 200 ++ [.delayMs 100] ++ beepTrace 200

/-- The trace of `rejectBeep()` (lines 215-217). -/
def rejectBeepTrace : List Event := beepTrace 1000

/-- One servo sweep: `iters` loop iterations starting at angle `pos`,
each doing `gateServo.write(pos); delay(20);` then adding `step` to `pos`. -/
def gateSweep (step : ℤ) : ℕ → ℤ → List Event
  | 0, _ => []
  | iters + 1, pos => .servoWrite pos :: .delayMs 20 :: gateSweep step iters (pos + step)

/-- The trace of `openGate()` (lines 165-170): `for (pos = 0; pos <= 180; pos += 2)` runs
exactly 91 iterations, at angles 0, 2, ..., 180. -/
def openGateTrace : List Event := gateSweep 2 91 SERVO_CLOSED_ANGLE

/-- The trace of `closeGate()` (lines 172-177): `for (pos = 180; pos >= 0; pos -= 2)` runs
exactly 91 iterations, at angles 180, 178, ..., 0. -/
def closeGateTrace : List Event := gateSweep (-2) 91 SERVO_OPEN_ANGLE

/-- The effects of `measureBottleHeight()` (lines 180-182): trigger pulse. -/
def measureTrace : List Event :=
  [.digitalWrite TRIG_PIN HIGH, .delayMicros 10, .digitalWrite TRIG_PIN LOW]

/-- The effects of `checkWaterPresence()` (lines 196-199): five 10ms delays,
one after each `analogRead`. -/
def waterTrace : List Event := List.replicate 5 (.delayMs 10)

/-! ## `inspectBottle` (source lines 113-139)

Inputs: the echo `duration` that `pulseIn` returns and the five analog
`samples` that `analogRead` returns.  `inspectResult` holds the local
variables `height`, `size`, `hasWater`, `accepted`; `inspectTrace` is the
effect trace of the call. -/

/-- The locals computed by `inspectBottle` (lines 115-118). -/
structure InspectResult where
  height : ℚ
  size : String
  hasWater : Bool
  accepted : Bool
  deriving DecidableEq, Repr

/-- Lines 115-118: `height`, `size`, `hasWater`, and
`accepted = !hasWater` (only accept empty bottles). -/
def inspectResult (duration : ℕ) (samples : Fin 5 → ℕ) : InspectResult :=
  { height := measureBottleHeight duration
  , size := classifyBottleSize (measureBottleHeight duration)
  , hasWater := checkWaterPresence samples
  , accepted := !checkWaterPresence samples }

/-- Lines 128-135: if accepted, open gate, accept beep, 5000ms hold, close
gate; otherwise reject beep only. -/
def decisionTrace (accepted : Bool) : List Event :=
  if accepted then
    openGateTrace ++ acceptBeepTrace ++ [.delayMs 5000] ++ closeGateTrace
  else
    rejectBeepTrace

/-- The effect trace of one `inspectBottle()` call (lines 113-139):
measurement, water sampling, display update, LED writes
(`GREEN = accepted`, `RED = !accepted`), the accept/reject actions, and the
diagnostic log line. -/
def inspectTrace (duration : ℕ) (samples : Fin 5 → ℕ) : List Event :=
  let r := inspectResult duration samples
  measureTrace ++ waterTrace ++
  [.lcdUpdate r.height r.size r.hasWater r.accepted] ++
  [.digitalWrite GREEN_LED r.accepted, .digitalWrite RED_LED (!r.accepted)] ++
  decisionTrace r.accepted ++
  [.serialLog r.height r.size r.hasWater r.accepted]

/-! ## `setup` (source lines 40-74) and the `loop` body (lines 79-89) -/

/-- The trace of `initializeLCD()` (lines 145-154). -/
def initializeLCDTrace : List Event :=
  [.lcdInit, .lcdBacklight, .lcdClear, .lcdSetCursor 0 0,
   .lcdPrintStr "LCD Test", .delayMs 500]

/-- The effect trace of `setup()` (lines 40-74).  The servo is commanded to
`SERVO_CLOSED_ANGLE`, `TRIG_PIN` and both LEDs are driven LOW, then the
ready screen and startup beep. -/
def setupTrace : List Event :=
  [.serialPrintStr "Bottle Inspection System Booting..."] ++
  initializeLCDTrace ++
  [.servoWrite SERVO_CLOSED_ANGLE] ++
  [.digitalWrite TRIG_PIN LOW] ++
  [.digitalWrite GREEN_LED LOW, .digitalWrite RED_LED LOW] ++
  [.lcdClear, .lcdSetCursor 0 0, .lcdPrintStr "System Ready"] ++
  startupBeepTrace ++ [.delayMs 1000, .lcdClear]

/-- The effect trace of one detected-bottle iteration of `loop()`
(lines 82-87): `inspectBottle()`, then `waitTicks` passes of the
`while (bottleDetected()) delay(10)` wait, the 2000ms result display, and
`lcd.clear()`.  After this trace the controller is idle again. -/
def loopBodyTrace (duration : ℕ) (samples : Fin 5 → ℕ) (waitTicks : ℕ) :
    List Event :=
  inspectTrace duration samples ++
  List.replicate waitTicks (.delayMs 10) ++
  [.delayMs 2000, .lcdClear]

/-! ## Trace projections and pin-state semantics -/

/-- The angle of a servo command, if the event is one. -/
def servoAngle : Event → Option ℤ
  | .servoWrite a => some a
  | _ => none

/-- All servo angles commanded in a trace, in order. -/
def servoAngles (l : List Event) : List ℤ := l.filterMap servoAngle

/-- Whether an event is a write to the green or red LED. -/
def isLedWrite : Event → Bool
  | .digitalWrite pin _ => pin == GREEN_LED || pin == RED_LED
  | _ => false

/-- Whether an event is a write to the buzzer pin. -/
def isBuzzerWrite : Event → Bool
  | .digitalWrite pin _ => pin == BUZZER_PIN
  | _ => false

/-- Apply one event to the digital pin levels (only `digitalWrite` changes
them; servo commands, delays, LCD and serial output do not). -/
def applyEvent (pins : ℕ → Bool) : Event → ℕ → Bool
  | .digitalWrite pin level => fun q => if q = pin then level else pins q
  | _ => pins

/-- Apply a trace of events to the digital pin levels, in order. -/
def applyEvents (pins : ℕ → Bool) (l : List Event) : ℕ → Bool :=
  l.foldl applyEvent pins

/-- Pin levels at power-up: every output starts LOW. -/
def initPins : ℕ → Bool := fun _ => false

/-! ## Helper lemmas -/

theorem applyEvents_append (pins : ℕ → Bool) (l₁ l₂ : List Event) :
    applyEvents pins (l₁ ++ l₂) = applyEvents (applyEvents pins l₁) l₂ :=
  List.foldl_append _ _ _ _

theorem applyEvents_gateSweep (step : ℤ) (n : ℕ) (pos : ℤ) (pins : ℕ → Bool) :
    applyEvents pins (gateSweep step n pos) = pins := by
  induction n generalizing pos with
  | zero => rfl
  | succ n ih => simpa [gateSweep, applyEvents, applyEvent] using ih (pos + step)

theorem applyEvents_replicate_delay (w : ℕ) (pins : ℕ → Bool) :
    applyEvents pins (List.replicate w (.delayMs 10)) = pins := by
  induction w with
  | zero => rfl
  | succ w ih => simp [List.replicate_succ, applyEvents, applyEvent] at ih ⊢; exact ih

theorem servoAngles_gateSweep (step : ℤ) (n : ℕ) (pos : ℤ) :
    servoAngles (gateSweep step n pos) = pos :: servoAngles (gateSweep step (n - 1) (pos + step)) ∨
      (n = 0 ∧ servoAngles (gateSweep step n pos) = []) := by
  cases n with
  | zero => exact Or.inr ⟨rfl, rfl⟩
  | succ n => exact Or.inl (by simp [gateSweep, servoAngles, servoAngle])

/-! ## Claims -/

/-- C1.  The accept decision computed by `inspectBottle` is exactly the
negation of the liquid-presence reading `hasWater`; the measured height
(hence the echo duration `d`) and the size category never affect it:
for any two durations `d`, `d'` the decision is the same. -/
theorem accept_decision_spec (d d' : ℕ) (s : Fin 5 → ℕ) :
    (inspectResult d s).accepted = !(inspectResult d s).hasWater ∧
    (inspectResult d s).accepted = !checkWaterPresence s ∧
    (inspectResult d s).accepted = (inspectResult d' s).accepted :=
  ⟨rfl, rfl, rfl⟩

/-- C2.  `classifyBottleSize` returns `"Small"` iff `h ≤ 15`, `"Medium"` iff
`15 < h ≤ 25`, and `"Large"` iff `25 < h`; the boundary heights 15 and 25
fall in the lower band.  Totality over the three categories is exactly the
three iffs (for every `h` one of the right-hand sides holds). -/
theorem classifyBottleSize_spec (h : ℚ) :
    (classifyBottleSize h = "Small" ↔ h ≤ 15) ∧
    (classifyBottleSize h = "Medium" ↔ 15 < h ∧ h ≤ 25) ∧
    (classifyBottleSize h = "Large" ↔ 25 < h) ∧
    classifyBottleSize 15 = "Small" ∧ classifyBottleSize 25 = "Medium" := by
  refine ⟨?_, ?_, ?_, by norm_num [classifyBottleSize, SMALL_MAX, MEDIUM_MAX], by
    norm_num [classifyBottleSize, SMALL_MAX, MEDIUM_MAX]⟩
  all_goals unfold classifyBottleSize SMALL_MAX MEDIUM_MAX
  all_goals split_ifs with h1 h2 <;> simp_all <;> linarith

/-- C3.  For every echo duration `d ≥ 0` (durations are naturals), with
`distance = d * 0.0343 / 2`, `measureBottleHeight` returns
`max (40 - distance) 0`, so it is never negative; a zero duration (no echo)
gives distance 0 and reported height exactly 40, the mounting height. -/
theorem measureBottleHeight_spec (d : ℕ) :
    measureBottleHeight d = max (SENSOR_HEIGHT - (d : ℚ) * (343 / 10000) / 2) 0 ∧
    0 ≤ measureBottleHeight d ∧
    measureBottleHeight 0 = 40 :=
  ⟨rfl, le_max_right _ _, by norm_num [measureBottleHeight, SENSOR_HEIGHT]⟩

/-- C4.  `checkWaterPresence` sums exactly five analog samples, truncated-
divides by 5, and returns true iff that average strictly exceeds the
threshold 500; five samples of 520 give true, five of 100 give false, and
an average of exactly 500 gives false. -/
theorem checkWaterPresence_spec (s : Fin 5 → ℕ) :
    checkWaterSum s = s 0 + s 1 + s 2 + s 3 + s 4 ∧
    (checkWaterPresence s = true ↔ CAP_WATER_THRESHOLD < checkWaterSum s / 5) ∧
    checkWaterPresence (fun _ => 520) = true ∧
    checkWaterPresence (fun _ => 100) = false ∧
    checkWaterPresence (fun _ => 500) = false := by
  refine ⟨by simp [checkWaterSum], ?_, by decide, by decide, by decide⟩
  simp [checkWaterPresence]

set_option maxRecDepth 100000 in
/-- C7.  `openGate` commands the servo from 0° to 180° and `closeGate` from
180° to 0°, in steps of exactly 2° (hence strictly monotonically), every
commanded angle within [0°, 180°], each write followed by a 20ms pause, and
each sweep ending exactly at the opposite endpoint. -/
theorem gate_sweep_spec :
    (∀ p ∈ (servoAngles openGateTrace).zip (servoAngles openGateTrace).tail,
      p.2 = p.1 + 2 ∧ p.1 < p.2) ∧
    (servoAngles openGateTrace).head? = some 0 ∧
    (servoAngles openGateTrace).getLast? = some 180 ∧
    (∀ a ∈ servoAngles openGateTrace, 0 ≤ a ∧ a ≤ 180) ∧
    openGateTrace = (servoAngles openGateTrace).flatMap
      (fun a => [.servoWrite a, .delayMs 20]) ∧
    (∀ p ∈ (servoAngles closeGateTrace).zip (servoAngles closeGateTrace).tail,
      p.2 = p.1 - 2 ∧ p.2 < p.1) ∧
    (servoAngles closeGateTrace).head? = some 180 ∧
    (servoAngles closeGateTrace).getLast? = some 0 ∧
    (∀ a ∈ servoAngles closeGateTrace, 0 ≤ a ∧ a ≤ 180) ∧
    closeGateTrace = (servoAngles closeGateTrace).flatMap
      (fun a => [.servoWrite a, .delayMs 20]) := by
  decide

/-- Helper for the stable-LOW characterisation: from a state whose recorded
level is already LOW with last change at `t0`, every further LOW tick at
time `t0 + d` outputs `true` exactly when `50 < d`, and the state never
changes again. -/
theorem runDebounce_stableLow (t0 : ℕ) (ds : List ℕ) :
    (runDebounce ⟨t0, LOW⟩ (ds.map (fun d => (t0 + d, LOW)))).1 =
      ds.map (fun d => decide (50 < d)) := by
  induction ds with
  | nil => rfl
  | cons d ds ih =>
    have hstep : bottleDetectedStep ⟨t0, LOW⟩ (t0 + d) LOW =
        (decide (50 < d), ⟨t0, LOW⟩) := by
      by_cases h : 50 < d <;>
        simp [bottleDetectedStep, LOW, Nat.add_sub_cancel_left, h]
    simp [runDebounce, hstep, ih]

/-- C5 counterexample.  One single stable-LOW interval (the raw level is LOW
on every tick and is held for 70ms > 50ms), yet `bottleDetected` reports a
detection twice, not exactly once: starting from the initial static state,
the tick sequence at times 0, 60, 70 yields `[false, true, true]`. -/
theorem bottleDetected_not_once_counterexample :
    (runDebounce initDebounceState [(0, LOW), (60, LOW), (70, LOW)]).1 =
      [false, true, true] ∧
    ((runDebounce initDebounceState [(0, LOW), (60, LOW), (70, LOW)]).1.count
      true) = 2 := by
  decide

/-- C5 (amended).  On a tick sequence whose raw level is LOW from the first
tick onward (one stable-LOW interval, first LOW observed at time `t0`,
later ticks at times `t0 + d`), `bottleDetected` returns false on the
change tick and on every later tick returns true exactly when more than
50ms have elapsed since the change — i.e. it reports the detection on
every tick past the debounce window, not at most once per interval. -/
theorem bottleDetected_stableLow_spec (d0 : ℕ) (t0 : ℕ) (ds : List ℕ) :
    (runDebounce ⟨d0, HIGH⟩ ((t0, LOW) :: ds.map (fun d => (t0 + d, LOW)))).1 =
      false :: ds.map (fun d => decide (50 < d)) := by
  have hstep : bottleDetectedStep ⟨d0, HIGH⟩ t0 LOW = (false, ⟨t0, LOW⟩) := by
    simp [bottleDetectedStep, HIGH, LOW]
  simp [runDebounce, hstep, runDebounce_stableLow]

/-- C6.  If the raw level chatters faster than the 50ms debounce window
throughout the tick sequence (every tick is at most 50ms after the most
recent observed level change — the signal never settles), `bottleDetected`
never returns true. -/
theorem bottleDetected_chatter_spec (st : DebounceState)
    (l : List (ℕ × Bool))
    (h : togglesFast st.lastDebounce st.lastState l = true) :
    (runDebounce st l).1 = List.replicate l.length false := by
  induction l generalizing st with
  | nil => rfl
  | cons p rest ih =>
    obtain ⟨now, s⟩ := p
    rw [togglesFast] at h
    simp only [Bool.and_eq_true, decide_eq_true_eq] at h
    obtain ⟨h1, h2⟩ := h
    have hstep : bottleDetectedStep st now s =
        (false, ⟨if s ≠ st.lastState then now else st.lastDebounce, s⟩) := by
      rw [bottleDetectedStep]
      exact if_neg (fun hc => absurd hc.1 (by omega))
    have hih := ih ⟨if s ≠ st.lastState then now else st.lastDebounce, s⟩ h2
    simp [runDebounce, hstep]
    simpa [List.replicate_succ] using hih

/-- C6 witness: a concrete chattering trace (changes at 10, 60, 100; every
tick at most 50ms after the last change) produces no detection. -/
theorem bottleDetected_chatter_spec_witness :
    togglesFast initDebounceState.lastDebounce initDebounceState.lastState
      [(10, LOW), (45, LOW), (60, HIGH), (100, LOW)] = true ∧
    (runDebounce initDebounceState
      [(10, LOW), (45, LOW), (60, HIGH), (100, LOW)]).1 =
      List.replicate 4 false :=
  ⟨by decide,
   bottleDetected_chatter_spec initDebounceState
     [(10, LOW), (45, LOW), (60, HIGH), (100, LOW)] (by decide)⟩

theorem applyEvents_nil (pins : ℕ → Bool) : applyEvents pins [] = pins := rfl

theorem applyEvents_cons (pins : ℕ → Bool) (e : Event) (l : List Event) :
    applyEvents pins (e :: l) = applyEvents (applyEvent pins e) l := rfl

theorem servoAngles_append (l₁ l₂ : List Event) :
    servoAngles (l₁ ++ l₂) = servoAngles l₁ ++ servoAngles l₂ :=
  List.filterMap_append _ _ _

theorem filter_isLedWrite_gateSweep (step : ℤ) (n : ℕ) (pos : ℤ) :
    (gateSweep step n pos).filter isLedWrite = [] := by
  induction n generalizing pos with
  | zero => rfl
  | succ n ih => simp [gateSweep, List.filter_cons, isLedWrite, ih]

/-- C8.  When the bottle is rejected (`accepted = false`), `inspectBottle`
commands the servo not at all (so the gate position is untouched), performs
no 5000ms hold, and its only buzzer activity is the single 1000ms reject
tone; when accepted, the trace contains, contiguously and in order, the
full gate opening, the accept tone, the 5000ms hold and the gate closing. -/
theorem inspect_frame_spec (d : ℕ) (s : Fin 5 → ℕ) :
    ((inspectResult d s).accepted = false →
      servoAngles (inspectTrace d s) = [] ∧
      Event.delayMs 5000 ∉ inspectTrace d s ∧
      (inspectTrace d s).filter isBuzzerWrite =
        [.digitalWrite BUZZER_PIN HIGH, .digitalWrite BUZZER_PIN LOW] ∧
      (beepTrace 1000).IsInfix (inspectTrace d s)) ∧
    ((inspectResult d s).accepted = true →
      (openGateTrace ++ acceptBeepTrace ++ [Event.delayMs 5000] ++
        closeGateTrace).IsInfix (inspectTrace d s)) := by
  cases hw : checkWaterPresence s with
  | true =>
    refine ⟨fun _ => ⟨?_, ?_, ?_, ?_⟩, fun h => absurd h (by simp [inspectResult, hw])⟩
    · simp [inspectTrace, inspectResult, decisionTrace, hw, servoAngles, servoAngle,
        measureTrace, waterTrace, rejectBeepTrace, beepTrace]
    · simp [inspectTrace, inspectResult, decisionTrace, hw,
        measureTrace, waterTrace, rejectBeepTrace, beepTrace]
    · simp [inspectTrace, inspectResult, decisionTrace, hw, isBuzzerWrite,
        measureTrace, waterTrace, rejectBeepTrace, beepTrace,
        TRIG_PIN, BUZZER_PIN, GREEN_LED, RED_LED]
    · refine ⟨measureTrace ++ waterTrace ++
        [Event.lcdUpdate (inspectResult d s).height (inspectResult d s).size
          (inspectResult d s).hasWater (inspectResult d s).accepted,
         Event.digitalWrite GREEN_LED (inspectResult d s).accepted,
         Event.digitalWrite RED_LED (!(inspectResult d s).accepted)],
        [Event.serialLog (inspectResult d s).height (inspectResult d s).size
          (inspectResult d s).hasWater (inspectResult d s).accepted], ?_⟩
      simp [inspectTrace, inspectResult, decisionTrace, hw, rejectBeepTrace]
  | false =>
    refine ⟨fun h => absurd h (by simp [inspectResult, hw]), fun _ => ?_⟩
    refine ⟨measureTrace ++ waterTrace ++
      [Event.lcdUpdate (inspectResult d s).height (inspectResult d s).size
        (inspectResult d s).hasWater (inspectResult d s).accepted,
       Event.digitalWrite GREEN_LED (inspectResult d s).accepted,
       Event.digitalWrite RED_LED (!(inspectResult d s).accepted)],
      [Event.serialLog (inspectResult d s).height (inspectResult d s).size
        (inspectResult d s).hasWater (inspectResult d s).accepted], ?_⟩
    simp [inspectTrace, inspectResult, decisionTrace, hw]

/-- C8 witness: a concrete rejected inspection (all samples 600, water
present) commands no servo angle, and a concrete accepted inspection (all
samples 0) contains the full open-tone-hold-close block. -/
theorem inspect_frame_spec_witness :
    ((inspectResult 0 (fun _ => 600)).accepted = false ∧
      servoAngles (inspectTrace 0 (fun _ => 600)) = []) ∧
    ((inspectResult 0 (fun _ => 0)).accepted = true ∧
      (openGateTrace ++ acceptBeepTrace ++ [Event.delayMs 5000] ++
        closeGateTrace).IsInfix (inspectTrace 0 (fun _ => 0))) :=
  ⟨⟨by decide, ((inspect_frame_spec 0 (fun _ => 600)).1 (by decide)).1⟩,
   ⟨by decide, (inspect_frame_spec 0 (fun _ => 0)).2 (by decide)⟩⟩

/-- C9 counterexample.  The LEDs are not cleared when the controller is idle
between inspections: after `setup` and one complete rejected inspection
cycle (all water samples 600, three wait ticks), the controller is idle
again but the red LED is still HIGH, while right after `setup` (the initial
idle) it was LOW.  Only `setup` ever drives both LEDs LOW. -/
theorem led_cleared_at_idle_counterexample :
    applyEvents initPins (setupTrace ++ loopBodyTrace 0 (fun _ => 600) 3)
      RED_LED = HIGH ∧
    applyEvents initPins setupTrace RED_LED = LOW := by
  decide

/-- C9 (amended).  During every inspection the green LED is driven to the
accept decision and the red LED to its negation (and these are the only
green/red writes `inspectBottle` makes); both LEDs are driven LOW once at
startup; but between inspections the LEDs are not cleared — after a
complete loop iteration the LEDs still hold the last decision's levels
when the controller is idle again. -/
theorem led_drive_spec (d : ℕ) (s : Fin 5 → ℕ) (w : ℕ) :
    (inspectTrace d s).filter isLedWrite =
      [Event.digitalWrite GREEN_LED (inspectResult d s).accepted,
       Event.digitalWrite RED_LED (!(inspectResult d s).accepted)] ∧
    applyEvents initPins setupTrace GREEN_LED = LOW ∧
    applyEvents initPins setupTrace RED_LED = LOW ∧
    applyEvents initPins (setupTrace ++ loopBodyTrace d s w) GREEN_LED =
      (inspectResult d s).accepted ∧
    applyEvents initPins (setupTrace ++ loopBodyTrace d s w) RED_LED =
      !(inspectResult d s).accepted := by
  refine ⟨?_, by decide, by decide, ?_, ?_⟩ <;>
  cases hw : checkWaterPresence s <;>
  simp [inspectTrace, inspectResult, decisionTrace, hw, loopBodyTrace,
    setupTrace, initializeLCDTrace, startupBeepTrace, measureTrace, waterTrace,
    openGateTrace, closeGateTrace, acceptBeepTrace, rejectBeepTrace, beepTrace,
    isLedWrite, List.filter_append, filter_isLedWrite_gateSweep,
    applyEvents_append, applyEvents_cons, applyEvents_nil,
    applyEvents_gateSweep, applyEvents_replicate_delay, applyEvent,
    initPins, HIGH, LOW, TRIG_PIN, BUZZER_PIN, GREEN_LED, RED_LED]

/-- C10.  From any history whose last commanded servo angle is 0° (as after
`setup`, which commands exactly the angle 0°), a complete `inspectBottle`
call — accepted or rejected — again leaves 0° as the last commanded angle,
so the gate is closed whenever the controller returns to waiting. -/
theorem gate_closed_after_inspect (d : ℕ) (s : Fin 5 → ℕ) (pre : List Event)
    (hpre : (servoAngles pre).getLast? = some SERVO_CLOSED_ANGLE) :
    servoAngles setupTrace = [SERVO_CLOSED_ANGLE] ∧
    (servoAngles (pre ++ inspectTrace d s)).getLast? = some SERVO_CLOSED_ANGLE := by
  refine ⟨by decide, ?_⟩
  rw [servoAngles_append]
  cases hw : checkWaterPresence s with
  | true =>
    have hnil : servoAngles (inspectTrace d s) = [] := by
      simp [inspectTrace, inspectResult, decisionTrace, hw, servoAngles, servoAngle,
        measureTrace, waterTrace, rejectBeepTrace, beepTrace]
    rw [hnil, List.append_nil]
    exact hpre
  | false =>
    have hins : servoAngles (inspectTrace d s) =
        servoAngles openGateTrace ++ servoAngles closeGateTrace := by
      simp [inspectTrace, inspectResult, decisionTrace, hw, servoAngles, servoAngle,
        measureTrace, waterTrace, acceptBeepTrace, beepTrace]
    rw [hins, List.getLast?_append_of_ne_nil, List.getLast?_append_of_ne_nil]
    · decide
    · decide
    · simp [List.append_ne_nil_of_right_ne_nil]
      decide

/-- C10 witness: after `setup` (whose only servo command is 0°) and one
concrete accepted inspection, the last commanded servo angle is again 0°. -/
theorem gate_closed_after_inspect_witness :
    (servoAngles setupTrace).getLast? = some SERVO_CLOSED_ANGLE ∧
    (servoAngles (setupTrace ++ inspectTrace 0 (fun _ => 0))).getLast? =
      some SERVO_CLOSED_ANGLE :=
  ⟨by decide, (gate_closed_after_inspect 0 (fun _ => 0) setupTrace (by decide)).2⟩

end BottleNet
